import Mathlib

/-!
Verification of the hornet autopeering plugin core
(`plugins/autopeering/autopeering.go`): entry-node parsing, the
neighbor-validity predicate, and the supervisor start/teardown sequence.

External collaborators (the Go standard library `net`, `encoding/base64`,
and the hive.go `iputils`/`netutil` helpers) are abstracted as oracle
functions supplied through environment records; the functions of the
plugin itself are embedded faithfully from the source.
-/

set_option autoImplicit false

namespace Hornet

/-- A registered service endpoint: the hive.go `service.Service` data,
with `network` the result of `Network()` and `address` the result of
`String()` (the stored `host:port` text). -/
structure Service where
  network : String
  address : String
deriving Repr, DecidableEq

/-- A peer's service record (hive.go `service.Record`): a mapping from
service key to endpoint. Embedded as an association list; `update`
prepends, `get` takes the first binding, matching map overwrite/lookup. -/
abbrev ServiceSet := List (String × Service)

/-- `service.New()`: the empty service record. -/
def ServiceSet.new : ServiceSet := []

/-- `Record.Update(key, network, address)`. -/
def ServiceSet.update (ss : ServiceSet) (key network address : String) : ServiceSet :=
  (key, { network := network, address := address }) :: ss

/-- `Record.Get(key)`: the endpoint registered for `key`, or `none`
(Go `nil`) when the key is unregistered. -/
def ServiceSet.get (ss : ServiceSet) (key : String) : Option Service :=
  (ss.find? (fun kv => kv.1 = key)).map (fun kv => kv.2)

/-- `service.PeeringKey` from hive.go: the peering service name. -/
def peeringKey : String := "peering"

/-- Modelled from the spec: `services.GossipServiceKey()` lives in
`packages/autopeering/services`, which is not part of the provided
source; per the spec the logical service name is "gossip". -/
def gossipServiceKey : String := "gossip"

/-- A peer identity (hive.go `peer.Peer`): public key bytes plus the
advertised service record. -/
structure Peer where
  publicKey : List Nat
  services : ServiceSet
deriving Repr, DecidableEq

/-- `peer.NewPeer(pubKey, services)`. -/
def newPeer (pubKey : List Nat) (ss : ServiceSet) : Peer :=
  { publicKey := pubKey, services := ss }

/-- Embeds `isValidNeighbor` (autopeering.go:53-70). `splitHostPort`
abstracts `net.SplitHostPort`, returning `some (host, port)` on success
and `none` on a split error. The result `none` models the Go runtime
fault reached when the peering-service lookup yields `nil` and
`peeringAddr.String()` dereferences it; `some b` models a normal return
of `b`. -/
def isValidNeighbor (splitHostPort : String → Option (String × String))
    (p : Peer) : Option Bool :=
  match p.services.get gossipServiceKey with
  | none => some false
  | some gossipAddr =>
    match splitHostPort gossipAddr.address with
    | none => some false
    | some (gossipHost, _) =>
      match p.services.get peeringKey with
      | none => none
      | some peeringAddr =>
        match splitHostPort peeringAddr.address with
        | none => some false
        | some (peeringHost, _) => some (decide (gossipHost = peeringHost))

/-- The errors of `parseEntryNodes`, one constructor per `fmt.Errorf`
site (autopeering.go:140,144,149,154), carrying the data each format
string interpolates. The first two wrap the sentinel
`ErrParsingEntryNode`; the last two wrap the underlying error. -/
inductive EntryNodeError where
  /-- "%w: entry node parts must be 2, is %d" wrapping `ErrParsingEntryNode`. -/
  | invalidFormat (partCount : Nat)
  /-- "%w: can't decode public key: %s" wrapping `ErrParsingEntryNode`. -/
  | invalidPublicKey (decodeError : String)
  /-- "%w: invalid entry node address %s" wrapping the `ParseOriginAddress` error. -/
  | invalidAddress (wrapped : String) (addressPart : String)
  /-- "%w: while handling %s" wrapping the `GetIPAddressesFromHost` error. -/
  | hostResolution (wrapped : String) (addressPart : String)
deriving Repr, DecidableEq

/-- Whether an `EntryNodeError` wraps the sentinel `ErrParsingEntryNode`
(so that Go `errors.Is(err, ErrParsingEntryNode)` holds). -/
def EntryNodeError.wrapsParsingEntryNode : EntryNodeError → Bool
  | .invalidFormat _ => true
  | .invalidPublicKey _ => true
  | .invalidAddress _ _ => false
  | .hostResolution _ _ => false

/-- Result of hive.go `iputils.ParseOriginAddress`: a host and a port. -/
structure OriginAddress where
  addr : String
  port : Nat
deriving Repr, DecidableEq

/-- Result of hive.go `iputils.GetIPAddressesFromHost`: an address set
from which `GetPreferredAddress(preferIPv6).ToString()` picks a
deterministic textual IP given the preference flag. -/
structure IPAddresses where
  preferredString : Bool → String

/-- Oracles abstracting the collaborators of `parseEntryNodes`:
`encoding/base64` decoding, the hive.go address helpers, and the two
configuration reads. -/
structure ParseEnv where
  /-- `base64.StdEncoding.DecodeString`: decoded bytes or a decode error. -/
  decodeBase64 : String → Except String (List Nat)
  /-- `iputils.ParseOriginAddress`. -/
  parseOriginAddress : String → Except String OriginAddress
  /-- `iputils.GetIPAddressesFromHost`. -/
  getIPAddressesFromHost : String → Except String IPAddresses
  /-- config `network.prefer_ipv6`. -/
  preferIPv6 : Bool

/-- Go `strings.Split(s, "@")` for the single-character separator used
by `parseEntryNodes`: cut the character sequence at every `@`; an input
with no `@` yields one part, and the empty string yields `[""]`, exactly
as `strings.Split` does. -/
def splitParts (s : String) : List String :=
  (s.data.splitOn '@').map List.asString

/-- The per-descriptor body of the `parseEntryNodes` loop
(autopeering.go:138-160), for a non-empty descriptor. -/
def parseEntryNode (env : ParseEnv) (d : String) : Except EntryNodeError Peer :=
  let parts := splitParts d
  if h2 : parts.length = 2 then
    match env.decodeBase64 (parts.get ⟨0, by omega⟩) with
    | .error e => .error (.invalidPublicKey e)
    | .ok pubKey =>
      match env.parseOriginAddress (parts.get ⟨1, by omega⟩) with
      | .error e => .error (.invalidAddress e (parts.get ⟨1, by omega⟩))
      | .ok entryAddr =>
        match env.getIPAddressesFromHost entryAddr.addr with
        | .error e => .error (.hostResolution e (parts.get ⟨1, by omega⟩))
        | .ok ipAddresses =>
          let ip := ipAddresses.preferredString env.preferIPv6
          let services := ServiceSet.new.update peeringKey "udp"
            (ip ++ ":" ++ toString entryAddr.port)
          .ok (newPeer pubKey services)
  else
    .error (.invalidFormat parts.length)

/-- Embeds `parseEntryNodes` (autopeering.go:132-164): iterate the
configured descriptor list, skip empty strings, return the first
per-descriptor error (the Go loop returns `nil, err` there), otherwise
append each parsed peer to the result. -/
def parseEntryNodes (env : ParseEnv) : List String → Except EntryNodeError (List Peer)
  | [] => .ok []
  | d :: rest =>
    if d = "" then
      parseEntryNodes env rest
    else
      match parseEntryNode env d with
      | .error e => .error e
      | .ok p =>
        match parseEntryNodes env rest with
        | .error e => .error e
        | .ok ps => .ok (p :: ps)

/-- The discovery protocol handle, as far as this plugin configures it:
`discover.New(..., discover.MasterPeers(entryNodes))` records the
bootstrap peer list. -/
structure DiscoveryProtocol where
  masterPeers : List Peer
deriving Repr, DecidableEq

/-- The selection protocol handle constructed by `selection.New(...)`;
its only datum relevant here is that it carries the neighbor validator
hook. -/
structure SelectionProtocol where
  validatorIsNeighborCheck : Bool
deriving Repr, DecidableEq

/-- The plugin's package-level state after `configureAP`: the
`Discovery` and `Selection` globals plus the error log produced during
configuration. -/
structure APState where
  discovery : Option DiscoveryProtocol
  selection : Option SelectionProtocol
  loggedParseErrors : List EntryNodeError

/-- Embeds `configureAP` (autopeering.go:39-50): parse the configured
entry nodes; on error log it and continue with the `nil` (empty) list;
construct `Discovery` with the entry nodes as master peers; construct
`Selection` (the source does so unconditionally). -/
def configureAP (env : ParseEnv) (entryNodesCfg : List String) : APState :=
  let parsed := parseEntryNodes env entryNodesCfg
  let entryNodes := match parsed with
    | .ok ps => ps
    | .error _ => []
  { discovery := some { masterPeers := entryNodes }
    selection := some { validatorIsNeighborCheck := true }
    loggedParseErrors := match parsed with
      | .ok _ => []
      | .error e => [e] }

/-- A resolved UDP address (`net.UDPAddr`), kept abstract. -/
structure UDPAddr where
  text : String
deriving Repr, DecidableEq

/-- An open UDP socket (`net.UDPConn`), kept abstract. -/
structure UDPConn where
  id : Nat
deriving Repr, DecidableEq

/-- The five resources released by the deferred close calls of `start`,
named by what each `defer` closes. -/
inductive TeardownStep where
  | closeSelection
  | closeDiscovery
  | closeServer
  | closeTransport
  | closeConn
deriving Repr, DecidableEq

/-- Observable events of a `start` run: protocol starts, entry into the
running (blocked-on-shutdown-signal) state, and each executed close
step together with whether that close call failed. -/
inductive Event where
  | startedDiscovery
  | startedSelection
  | enteredRunning
  | closed (step : TeardownStep) (closeFailed : Bool)
deriving Repr, DecidableEq

/-- How a `start` run ends, one constructor per exit site. -/
inductive StartOutcome where
  /-- `panic(err)` at the `SplitHostPort` call on the local peering address. -/
  | splitFault (message : String)
  /-- `log.Fatalf("Error resolving %s: %v", ...)` after `ResolveUDPAddr`. -/
  | fatalResolve
  /-- `panic(err)` inside `checkConnection` at `ResolveUDPAddr`. -/
  | resolveFault (message : String)
  /-- a Go `nil` dereference of an absent peering service. -/
  | nilServiceFault
  /-- `log.Panicf("Please check that HORNET is publicly reachable at %s/%s",
  peering.String(), peering.Network())` after a failed `netutil.CheckUDP`
  probe, carrying exactly the advertised address and network it names. -/
  | selfTestFatal (advertisedAddress advertisedNetwork : String)
  /-- `log.Fatalf("Error listening: %v", err)` after `net.ListenUDP`. -/
  | fatalListen
  /-- reached running, received the shutdown signal and unwound the defers. -/
  | ranAndStopped
deriving Repr, DecidableEq

/-- `net.JoinHostPort`: bracket the host when it contains a colon. -/
def joinHostPort (host port : String) : String :=
  if host.contains ':' then "[" ++ host ++ "]:" ++ port
  else host ++ ":" ++ port

/-- Oracles abstracting the collaborators of `start` and
`checkConnection`: `net.SplitHostPort`, `net.ResolveUDPAddr`,
`netutil.CheckUDP` (`none` = probe succeeded, `some msg` = probe error),
`net.ListenUDP`, the configured bind host, and which deferred close
calls fail. -/
structure StartEnv where
  splitHostPort : String → Option (String × String)
  resolveUDPAddr : String → String → Except String UDPAddr
  checkUDP : UDPAddr → UDPAddr → Bool → Bool → Option String
  listenUDP : String → UDPAddr → Except String UDPConn
  bindConfig : String
  closeFails : TeardownStep → Bool

/-- Result of `checkConnection`: a fault, the reachability diagnostic,
or success. -/
inductive CheckResult where
  | nilServiceFault
  | resolveFault (message : String)
  | reachabilityFatal (advertisedAddress advertisedNetwork : String)
  | ok
deriving Repr, DecidableEq

/-- Embeds `checkConnection` (autopeering.go:166-180): resolve the local
identity's advertised peering address and probe it with
`netutil.CheckUDP(localAddr, remoteAddr, false, true)` (address
verification off); a probe error is fatal with a diagnostic naming the
advertised address and its network. -/
def checkConnection (env : StartEnv) (localAddr : UDPAddr) (selfPeer : Peer) :
    CheckResult :=
  match selfPeer.services.get peeringKey with
  | none => .nilServiceFault
  | some peering =>
    match env.resolveUDPAddr peering.network peering.address with
    | .error e => .resolveFault e
    | .ok remoteAddr =>
      match env.checkUDP localAddr remoteAddr false true with
      | some _ => .reachabilityFatal peering.address peering.network
      | none => .ok

/-- Embeds `start` (autopeering.go:72-130): split the advertised peering
address to get the peering port, resolve the bind address, run the
connectivity self-test, open the UDP socket, wrap it in the transport
and the server, start discovery (and selection when the `Selection`
global is non-nil), block on the shutdown signal, then run the deferred
close calls in reverse order of registration; a deferred close runs
whether or not the close calls before it failed. Returns the outcome and
the event trace. -/
def start (env : StartEnv) (lPeer : Peer)
    (selectionGlobal : Option SelectionProtocol) :
    StartOutcome × List Event :=
  match lPeer.services.get peeringKey with
  | none => (.nilServiceFault, [])
  | some peeringAddr =>
    match env.splitHostPort peeringAddr.address with
    | none => (.splitFault peeringAddr.address, [])
    | some (_, peeringPort) =>
      let address := joinHostPort env.bindConfig peeringPort
      match env.resolveUDPAddr peeringAddr.network address with
      | .error _ => (.fatalResolve, [])
      | .ok localAddr =>
        match checkConnection env localAddr lPeer with
        | .nilServiceFault => (.nilServiceFault, [])
        | .resolveFault m => (.resolveFault m, [])
        | .reachabilityFatal a n => (.selfTestFatal a n, [])
        | .ok =>
          match env.listenUDP peeringAddr.network localAddr with
          | .error _ => (.fatalListen, [])
          | .ok _conn =>
            let startEvents :=
              [Event.startedDiscovery] ++
              (match selectionGlobal with
                | some _ => [Event.startedSelection]
                | none => []) ++
              [Event.enteredRunning]
            let teardownEvents :=
              (match selectionGlobal with
                | some _ => [Event.closed .closeSelection
                    (env.closeFails .closeSelection)]
                | none => []) ++
              [Event.closed .closeDiscovery (env.closeFails .closeDiscovery),
               Event.closed .closeServer (env.closeFails .closeServer),
               Event.closed .closeTransport (env.closeFails .closeTransport),
               Event.closed .closeConn (env.closeFails .closeConn)]
            (.ranAndStopped, startEvents ++ teardownEvents)

/-- The sequence of close steps executed in a trace, in order. -/
def teardownSequence (trace : List Event) : List TeardownStep :=
  trace.filterMap (fun e => match e with
    | .closed s _ => some s
    | _ => none)

/-! ### Concrete sample data used by the witnesses -/

/-- A concrete host-port splitter handling the sample addresses. -/
def sampleSplit : String → Option (String × String) := fun s =>
  if s = "10.0.0.1:15600" then some ("10.0.0.1", "15600")
  else if s = "10.0.0.1:14626" then some ("10.0.0.1", "14626")
  else if s = "10.0.0.2:14626" then some ("10.0.0.2", "14626")
  else none

/-- A peer advertising gossip and peering on the same host. -/
def samplePeerBoth : Peer :=
  newPeer [1, 2, 3]
    ((ServiceSet.new.update peeringKey "udp" "10.0.0.1:14626").update
      gossipServiceKey "tcp" "10.0.0.1:15600")

/-- A peer advertising only a gossip service. -/
def samplePeerGossipOnly : Peer :=
  newPeer [4, 5]
    (ServiceSet.new.update gossipServiceKey "tcp" "10.0.0.1:15600")

/-! ### Theorems -/

/-- C1: `isValidNeighbor` returns `true` exactly when the candidate has a
registered gossip service, has a peering endpoint, both endpoints split
into host and port, and the two hosts agree; it returns `false` when the
gossip service is missing or when either endpoint fails to split, and no
condition is placed on the ports. -/
theorem isValidNeighbor_host_check (shp : String → Option (String × String))
    (p : Peer) :
    (isValidNeighbor shp p = some true ↔
      ∃ g q gHost gPort qHost qPort,
        p.services.get gossipServiceKey = some g ∧
        p.services.get peeringKey = some q ∧
        shp g.address = some (gHost, gPort) ∧
        shp q.address = some (qHost, qPort) ∧
        gHost = qHost)
    ∧ (p.services.get gossipServiceKey = none →
        isValidNeighbor shp p = some false)
    ∧ (∀ g, p.services.get gossipServiceKey = some g → shp g.address = none →
        isValidNeighbor shp p = some false)
    ∧ (∀ g q gHost gPort, p.services.get gossipServiceKey = some g →
        shp g.address = some (gHost, gPort) →
        p.services.get peeringKey = some q → shp q.address = none →
        isValidNeighbor shp p = some false) := by
  refine ⟨⟨fun h => ?_, fun h => ?_⟩, fun h => ?_, fun g hg hsg => ?_,
    fun g q gHost gPort hg hsg hq hsq => ?_⟩
  · rcases hg : p.services.get gossipServiceKey with _ | g
    · simp [isValidNeighbor, hg] at h
    · rcases hsg : shp g.address with _ | ⟨gHost, gPort⟩
      · simp [isValidNeighbor, hg, hsg] at h
      · rcases hq : p.services.get peeringKey with _ | q
        · simp [isValidNeighbor, hg, hsg, hq] at h
        · rcases hsq : shp q.address with _ | ⟨qHost, qPort⟩
          · simp [isValidNeighbor, hg, hsg, hq, hsq] at h
          · simp only [isValidNeighbor, hg, hsg, hq, hsq, Option.some.injEq,
              decide_eq_true_eq] at h
            exact ⟨g, q, gHost, gPort, qHost, qPort, rfl, rfl, hsg, hsq, h⟩
  · obtain ⟨g, q, gHost, gPort, qHost, qPort, hg, hq, hsg, hsq, heq⟩ := h
    simp [isValidNeighbor, hg, hq, hsg, hsq, heq]
  · simp [isValidNeighbor, h]
  · simp [isValidNeighbor, hg, hsg]
  · simp [isValidNeighbor, hg, hsg, hq, hsq]

/-- Witness for C1 at a concrete candidate: gossip `10.0.0.1:15600` and
peering `10.0.0.1:14626` (same host, different ports) is accepted. -/
theorem isValidNeighbor_host_check_witness :
    isValidNeighbor sampleSplit samplePeerBoth = some true :=
  (isValidNeighbor_host_check sampleSplit samplePeerBoth).1.mpr
    ⟨{ network := "tcp", address := "10.0.0.1:15600" },
     { network := "udp", address := "10.0.0.1:14626" },
     "10.0.0.1", "15600", "10.0.0.1", "14626",
     by decide, by decide, by decide, by decide, rfl⟩

/-- C2: `isValidNeighbor` returns a value (does not fault) whenever the
candidate has a peering service registered; for a candidate whose gossip
endpoint is present and splits but which lacks a peering service, the
evaluation reaches the `nil` peering endpoint and faults instead of
returning `false`. -/
theorem isValidNeighbor_requires_peering
    (shp : String → Option (String × String)) (p : Peer) :
    ((∃ q, p.services.get peeringKey = some q) →
      (isValidNeighbor shp p).isSome = true)
    ∧ (∀ g gHost gPort, p.services.get gossipServiceKey = some g →
        shp g.address = some (gHost, gPort) →
        p.services.get peeringKey = none →
        isValidNeighbor shp p = none) := by
  constructor
  · rintro ⟨q, hq⟩
    rcases hg : p.services.get gossipServiceKey with _ | g
    · simp [isValidNeighbor, hg]
    · rcases hsg : shp g.address with _ | ⟨gHost, gPort⟩
      · simp [isValidNeighbor, hg, hsg]
      · rcases hsq : shp q.address with _ | ⟨qHost, qPort⟩
        · simp [isValidNeighbor, hg, hsg, hq, hsq]
        · simp [isValidNeighbor, hg, hsg, hq, hsq]
  · intro g gHost gPort hg hsg hq
    simp [isValidNeighbor, hg, hsg, hq]

/-- Witness for C2: the same-host candidate (which has a peering
service) gets a definite answer, while the gossip-only candidate makes
the predicate fault. -/
theorem isValidNeighbor_requires_peering_witness :
    (isValidNeighbor sampleSplit samplePeerBoth).isSome = true ∧
    isValidNeighbor sampleSplit samplePeerGossipOnly = none :=
  ⟨(isValidNeighbor_requires_peering sampleSplit samplePeerBoth).1
      ⟨{ network := "udp", address := "10.0.0.1:14626" }, by decide⟩,
   (isValidNeighbor_requires_peering sampleSplit samplePeerGossipOnly).2
      { network := "tcp", address := "10.0.0.1:15600" } "10.0.0.1" "15600"
      (by decide) (by decide) (by decide)⟩

/-! ### Parser helper lemmas -/

/-- A descriptor that does not split into two parts makes
`parseEntryNode` report the part count. -/
theorem parseEntryNode_format_error (env : ParseEnv) (d : String)
    (h : (splitParts d).length ≠ 2) :
    parseEntryNode env d = .error (.invalidFormat (splitParts d).length) := by
  unfold parseEntryNode
  simp [h]

/-- A two-part descriptor with an undecodable key segment makes
`parseEntryNode` wrap the decode error. -/
theorem parseEntryNode_pubkey_error (env : ParseEnv) (d p0 p1 : String)
    (e : String) (hs : splitParts d = [p0, p1])
    (hd : env.decodeBase64 p0 = .error e) :
    parseEntryNode env d = .error (.invalidPublicKey e) := by
  unfold parseEntryNode
  simp [hs, hd]

/-- `parseEntryNode` on a descriptor for which every oracle succeeds. -/
theorem parseEntryNode_ok (env : ParseEnv) (d p0 p1 : String)
    (pk : List Nat) (oa : OriginAddress) (ips : IPAddresses)
    (hs : splitParts d = [p0, p1]) (hk : env.decodeBase64 p0 = .ok pk)
    (ha : env.parseOriginAddress p1 = .ok oa)
    (hi : env.getIPAddressesFromHost oa.addr = .ok ips) :
    parseEntryNode env d = .ok (newPeer pk
      (ServiceSet.new.update peeringKey "udp"
        (ips.preferredString env.preferIPv6 ++ ":" ++ toString oa.port))) := by
  unfold parseEntryNode
  simp [hs, hk, ha, hi, ServiceSet.update, ServiceSet.new, newPeer]

/-- Unfolding `parseEntryNodes` on a non-empty head that errors. -/
theorem parseEntryNodes_cons_error (env : ParseEnv) (d : String)
    (rest : List String) (e : EntryNodeError) (hne : d ≠ "")
    (h : parseEntryNode env d = .error e) :
    parseEntryNodes env (d :: rest) = .error e := by
  unfold parseEntryNodes
  simp [hne, h]

/-- Unfolding `parseEntryNodes` on a non-empty head that parses. -/
theorem parseEntryNodes_cons_ok (env : ParseEnv) (d : String)
    (rest : List String) (p : Peer) (hne : d ≠ "")
    (h : parseEntryNode env d = .ok p) :
    parseEntryNodes env (d :: rest) =
      match parseEntryNodes env rest with
      | .error e => .error e
      | .ok ps => .ok (p :: ps) := by
  conv_lhs => rw [parseEntryNodes]
  simp [hne, h]

/-- A well-formed (per C6) descriptor: it splits in two and each oracle
succeeds on its segment. -/
def WellFormed (env : ParseEnv) (d : String) : Prop :=
  ∃ p0 p1 pk oa ips,
    splitParts d = [p0, p1] ∧
    env.decodeBase64 p0 = .ok pk ∧
    env.parseOriginAddress p1 = .ok oa ∧
    env.getIPAddressesFromHost oa.addr = .ok ips

/-- The peer a well-formed descriptor parses to. -/
def expectedPeer (env : ParseEnv) (d : String) : Peer :=
  match parseEntryNode env d with
  | .ok p => p
  | .error _ => newPeer [] ServiceSet.new

/-- The empty descriptor splits into a single part. -/
theorem splitParts_empty : splitParts "" = [""] := by decide

/-- A well-formed descriptor is non-empty. -/
theorem WellFormed.ne_empty {env : ParseEnv} {d : String}
    (h : WellFormed env d) : d ≠ "" := by
  rintro rfl
  obtain ⟨p0, p1, _, _, _, hs, _⟩ := h
  rw [splitParts_empty] at hs
  simp at hs

/-- A concrete oracle assignment for the parser witnesses: `"QUJD"`
decodes, `"host:15600"` parses to host `"host"` and port `15600`, and
`"host"` resolves to `"1.2.3.4"`; everything else fails. -/
def sampleParseEnv : ParseEnv where
  decodeBase64 := fun s =>
    if s = "QUJD" then .ok [65, 66, 67]
    else .error ("illegal base64 data at input byte 0 of " ++ s)
  parseOriginAddress := fun s =>
    if s = "host:15600" then .ok { addr := "host", port := 15600 }
    else .error ("invalid origin address " ++ s)
  getIPAddressesFromHost := fun s =>
    if s = "host" then .ok { preferredString := fun _ => "1.2.3.4" }
    else .error ("lookup failed for " ++ s)
  preferIPv6 := false

/-- C4: a non-empty descriptor that does not split into exactly two
`@`-delimited parts makes `parseEntryNodes` fail with the
format error carrying the part count found, a two-part descriptor whose
key segment does not decode makes it fail with the public-key error
wrapping the decode error, and the two errors are distinct values (both
wrapping the `ErrParsingEntryNode` sentinel). -/
theorem parseEntryNodes_error_kinds (env : ParseEnv) (d : String)
    (rest : List String) (hne : d ≠ "") :
    ((splitParts d).length ≠ 2 →
      parseEntryNodes env (d :: rest) =
        .error (.invalidFormat (splitParts d).length))
    ∧ (∀ p0 p1 e, splitParts d = [p0, p1] → env.decodeBase64 p0 = .error e →
      parseEntryNodes env (d :: rest) = .error (.invalidPublicKey e))
    ∧ (∀ n e, EntryNodeError.invalidFormat n ≠ EntryNodeError.invalidPublicKey e)
    ∧ (∀ n, (EntryNodeError.invalidFormat n).wrapsParsingEntryNode = true)
    ∧ (∀ e, (EntryNodeError.invalidPublicKey e).wrapsParsingEntryNode = true) := by
  refine ⟨fun h => ?_, fun p0 p1 e hs hd => ?_, fun n e => by simp,
    fun n => rfl, fun e => rfl⟩
  · exact parseEntryNodes_cons_error env d rest _ hne
      (parseEntryNode_format_error env d h)
  · exact parseEntryNodes_cons_error env d rest _ hne
      (parseEntryNode_pubkey_error env d p0 p1 e hs hd)

/-- Witness for C4: a three-part descriptor reports part count `3`, and
a bad-base64 key segment reports the wrapped decode error. -/
theorem parseEntryNodes_error_kinds_witness :
    parseEntryNodes sampleParseEnv ["a@b@c"] =
      .error (.invalidFormat 3) ∧
    parseEntryNodes sampleParseEnv ["!!@host:15600"] =
      .error (.invalidPublicKey "illegal base64 data at input byte 0 of !!") :=
  ⟨(parseEntryNodes_error_kinds sampleParseEnv "a@b@c" [] (by decide)).1
      (by decide),
   (parseEntryNodes_error_kinds sampleParseEnv "!!@host:15600" []
      (by decide)).2.1 "!!" "host:15600" _ (by decide) rfl⟩

/-- C6: when every descriptor of the input is well-formed,
`parseEntryNodes` succeeds with exactly one peer per descriptor, and
that peer's service record is the single peering endpoint
`preferredIP:port` with the port taken from the descriptor's address
segment, its public key the base64-decoded key segment. -/
theorem parseEntryNodes_wellformed (env : ParseEnv) (l : List String)
    (hwf : ∀ d ∈ l, WellFormed env d) :
    parseEntryNodes env l = .ok (l.map (expectedPeer env))
    ∧ ∀ d ∈ l, ∀ p0 p1 pk oa ips,
        splitParts d = [p0, p1] → env.decodeBase64 p0 = .ok pk →
        env.parseOriginAddress p1 = .ok oa →
        env.getIPAddressesFromHost oa.addr = .ok ips →
        (expectedPeer env d).publicKey = pk ∧
        (expectedPeer env d).services =
          [(peeringKey, { network := "udp",
                          address := ips.preferredString env.preferIPv6 ++
                            ":" ++ toString oa.port })] := by
  constructor
  · induction l with
    | nil => rfl
    | cons d rest ih =>
      obtain ⟨p0, p1, pk, oa, ips, hs, hk, ha, hi⟩ := hwf d (by simp)
      have hok := parseEntryNode_ok env d p0 p1 pk oa ips hs hk ha hi
      have hne : d ≠ "" := WellFormed.ne_empty ⟨p0, p1, pk, oa, ips, hs, hk, ha, hi⟩
      rw [parseEntryNodes_cons_ok env d rest _ hne hok,
        ih (fun x hx => hwf x (by simp [hx]))]
      simp [expectedPeer, hok]
  · intro d _ p0 p1 pk oa ips hs hk ha hi
    have hok := parseEntryNode_ok env d p0 p1 pk oa ips hs hk ha hi
    constructor
    · simp [expectedPeer, hok, newPeer]
    · simp [expectedPeer, hok, newPeer, ServiceSet.update, ServiceSet.new]

/-- Witness for C6: one well-formed descriptor yields exactly its peer. -/
theorem parseEntryNodes_wellformed_witness :
    parseEntryNodes sampleParseEnv ["QUJD@host:15600"] =
      .ok [newPeer [65, 66, 67]
        [(peeringKey, { network := "udp", address := "1.2.3.4:15600" })]] := by
  have h := (parseEntryNodes_wellformed sampleParseEnv ["QUJD@host:15600"]
    (by
      intro d hd
      simp only [List.mem_singleton] at hd
      subst hd
      exact ⟨"QUJD", "host:15600", [65, 66, 67],
        { addr := "host", port := 15600 },
        { preferredString := fun _ => "1.2.3.4" },
        by decide, rfl, rfl, rfl⟩)).1
  rw [h]
  rfl

/-- C7: parsing is fail-fast — when every entry before `d` is either
empty (skipped) or parseable, `d` is non-empty and `d` fails, the whole
call returns `d`'s error, whatever still follows in the list. -/
theorem parseEntryNodes_fail_fast (env : ParseEnv) (pre : List String)
    (d : String) (rest : List String) (e : EntryNodeError)
    (hpre : ∀ x ∈ pre, x = "" ∨ ∃ p, parseEntryNode env x = .ok p)
    (hd : d ≠ "") (he : parseEntryNode env d = .error e) :
    parseEntryNodes env (pre ++ d :: rest) = .error e := by
  induction pre with
  | nil => exact parseEntryNodes_cons_error env d rest e hd he
  | cons x pre' ih =>
    have ih' := ih (fun y hy => hpre y (by simp [hy]))
    rcases hpre x (by simp) with hx | ⟨p, hp⟩
    · subst hx
      rw [List.cons_append]
      conv_lhs => rw [parseEntryNodes]
      simpa using ih'
    · by_cases hxe : x = ""
      · subst hxe
        rw [List.cons_append]
        conv_lhs => rw [parseEntryNodes]
        simpa using ih'
      · rw [List.cons_append,
          parseEntryNodes_cons_ok env x (pre' ++ d :: rest) p hxe hp, ih']

/-- Witness for C7: with one empty entry and one good entry before it, a
malformed third descriptor aborts the call with its error even though a
further good descriptor follows. -/
theorem parseEntryNodes_fail_fast_witness :
    parseEntryNodes sampleParseEnv
      ["", "QUJD@host:15600", "a@b@c", "QUJD@host:15600"] =
      .error (.invalidFormat 3) :=
  parseEntryNodes_fail_fast sampleParseEnv ["", "QUJD@host:15600"]
    "a@b@c" ["QUJD@host:15600"] (.invalidFormat 3)
    (by
      intro x hx
      simp only [List.mem_cons, List.not_mem_nil, or_false] at hx
      rcases hx with rfl | rfl
      · exact Or.inl rfl
      · exact Or.inr ⟨newPeer [65, 66, 67]
          [(peeringKey, { network := "udp", address := "1.2.3.4:15600" })],
          rfl⟩)
    (by decide) rfl

/-- C9: a parse failure of the entry-node configuration does not abort
configuration — the error is logged and `Discovery` is still constructed,
with an empty master-peer list. -/
theorem configureAP_proceeds_on_error (env : ParseEnv) (cfg : List String)
    (e : EntryNodeError) (he : parseEntryNodes env cfg = .error e) :
    (configureAP env cfg).discovery = some { masterPeers := [] } ∧
    (configureAP env cfg).loggedParseErrors = [e] := by
  unfold configureAP
  simp [he]

/-- Witness for C9: a malformed entry-node setting still yields a
discovery protocol with no master peers, the error logged. -/
theorem configureAP_proceeds_on_error_witness :
    (configureAP sampleParseEnv ["a@b@c"]).discovery =
      some { masterPeers := [] } ∧
    (configureAP sampleParseEnv ["a@b@c"]).loggedParseErrors =
      [.invalidFormat 3] :=
  configureAP_proceeds_on_error sampleParseEnv ["a@b@c"]
    (.invalidFormat 3) rfl

/-- C10: empty-string entries are skipped wherever they occur — parsing
a list gives exactly the result of parsing the list with all empty
strings removed, so they affect neither the count nor the content of the
parsed peers. -/
theorem parseEntryNodes_skip_empty (env : ParseEnv) (l : List String) :
    parseEntryNodes env l =
      parseEntryNodes env (l.filter (fun d => decide (d ≠ ""))) := by
  induction l with
  | nil => rfl
  | cons d rest ih =>
    by_cases hd : d = ""
    · subst hd
      conv_lhs => rw [parseEntryNodes]
      simpa using ih
    · rw [List.filter_cons_of_pos (by simpa using hd)]
      conv_lhs => rw [parseEntryNodes]
      conv_rhs => rw [parseEntryNodes]
      simp only [hd, if_false, ih]

/-! ### Supervisor helper lemmas and sample environments -/

/-- Inversion: a run that ended `ranAndStopped` passed every startup
stage successfully. -/
theorem start_success_inversion (env : StartEnv) (lPeer : Peer)
    (sel : Option SelectionProtocol)
    (h : (start env lPeer sel).1 = .ranAndStopped) :
    ∃ peering host port localAddr conn,
      lPeer.services.get peeringKey = some peering ∧
      env.splitHostPort peering.address = some (host, port) ∧
      env.resolveUDPAddr peering.network
        (joinHostPort env.bindConfig port) = .ok localAddr ∧
      checkConnection env localAddr lPeer = .ok ∧
      env.listenUDP peering.network localAddr = .ok conn := by
  rcases h1 : lPeer.services.get peeringKey with _ | peering
  · simp [start, h1] at h
  · rcases h2 : env.splitHostPort peering.address with _ | ⟨host, port⟩
    · simp [start, h1, h2] at h
    · rcases h3 : env.resolveUDPAddr peering.network
          (joinHostPort env.bindConfig port) with e | localAddr
      · simp [start, h1, h2, h3] at h
      · rcases h4 : checkConnection env localAddr lPeer with _ | m | ⟨a, n⟩ | _
        · simp [start, h1, h2, h3, h4] at h
        · simp [start, h1, h2, h3, h4] at h
        · simp [start, h1, h2, h3, h4] at h
        · rcases h5 : env.listenUDP peering.network localAddr with e | conn
          · simp [start, h1, h2, h3, h4, h5] at h
          · exact ⟨peering, host, port, localAddr, conn, rfl, h2, h3, h4, h5⟩

/-- The full event trace of a successful run. -/
theorem start_success_trace (env : StartEnv) (lPeer : Peer)
    (sel : Option SelectionProtocol) (peering : Service)
    (host port : String) (localAddr : UDPAddr) (conn : UDPConn)
    (h1 : lPeer.services.get peeringKey = some peering)
    (h2 : env.splitHostPort peering.address = some (host, port))
    (h3 : env.resolveUDPAddr peering.network
      (joinHostPort env.bindConfig port) = .ok localAddr)
    (h4 : checkConnection env localAddr lPeer = .ok)
    (h5 : env.listenUDP peering.network localAddr = .ok conn) :
    start env lPeer sel = (.ranAndStopped,
      [Event.startedDiscovery] ++
      (match sel with
        | some _ => [Event.startedSelection]
        | none => []) ++
      [Event.enteredRunning] ++
      (match sel with
        | some _ => [Event.closed .closeSelection
            (env.closeFails .closeSelection)]
        | none => []) ++
      [Event.closed .closeDiscovery (env.closeFails .closeDiscovery),
       Event.closed .closeServer (env.closeFails .closeServer),
       Event.closed .closeTransport (env.closeFails .closeTransport),
       Event.closed .closeConn (env.closeFails .closeConn)]) := by
  cases sel <;> simp [start, h1, h2, h3, h4, h5]

/-- A run that did not end `ranAndStopped` produced no events: every
startup failure aborts before discovery starts. -/
theorem start_failure_trace_empty (env : StartEnv) (lPeer : Peer)
    (sel : Option SelectionProtocol)
    (h : (start env lPeer sel).1 ≠ .ranAndStopped) :
    (start env lPeer sel).2 = [] := by
  rcases h1 : lPeer.services.get peeringKey with _ | peering
  · simp [start, h1]
  · rcases h2 : env.splitHostPort peering.address with _ | ⟨host, port⟩
    · simp [start, h1, h2]
    · rcases h3 : env.resolveUDPAddr peering.network
          (joinHostPort env.bindConfig port) with e | localAddr
      · simp [start, h1, h2, h3]
      · rcases h4 : checkConnection env localAddr lPeer with _ | m | ⟨a, n⟩ | _
        · simp [start, h1, h2, h3, h4]
        · simp [start, h1, h2, h3, h4]
        · simp [start, h1, h2, h3, h4]
        · rcases h5 : env.listenUDP peering.network localAddr with e | conn
          · simp [start, h1, h2, h3, h4, h5]
          · cases sel <;> simp [start, h1, h2, h3, h4, h5] at h

/-- With a non-nil `Selection` global, a run either starts the selection
protocol or never produces an event at all. -/
theorem start_selection_started_or_dead (senv : StartEnv) (lPeer : Peer)
    (proto : SelectionProtocol) :
    Event.startedSelection ∈ (start senv lPeer (some proto)).2 ∨
    (start senv lPeer (some proto)).2 = [] := by
  by_cases h : (start senv lPeer (some proto)).1 = .ranAndStopped
  · left
    obtain ⟨peering, host, port, localAddr, conn, h1, h2, h3, h4, h5⟩ :=
      start_success_inversion senv lPeer (some proto) h
    simp [start, h1, h2, h3, h4, h5]
  · right
    exact start_failure_trace_empty senv lPeer (some proto) h

/-- A start environment whose reachability probe fails. -/
def sampleStartEnvProbeFail : StartEnv where
  splitHostPort := sampleSplit
  resolveUDPAddr := fun _ _ => .ok { text := "resolved" }
  checkUDP := fun _ _ _ _ => some "timeout"
  listenUDP := fun _ _ => .ok { id := 7 }
  bindConfig := "0.0.0.0"
  closeFails := fun _ => false

/-- A start environment whose UDP bind fails (port already in use). -/
def sampleStartEnvListenFail : StartEnv where
  splitHostPort := sampleSplit
  resolveUDPAddr := fun _ _ => .ok { text := "resolved" }
  checkUDP := fun _ _ _ _ => none
  listenUDP := fun _ _ => .error "address already in use"
  bindConfig := "0.0.0.0"
  closeFails := fun _ => false

/-- A start environment where startup succeeds and the discovery close
call fails during teardown. -/
def sampleStartEnvOk : StartEnv where
  splitHostPort := sampleSplit
  resolveUDPAddr := fun _ _ => .ok { text := "resolved" }
  checkUDP := fun _ _ _ _ => none
  listenUDP := fun _ _ => .ok { id := 7 }
  bindConfig := "0.0.0.0"
  closeFails := fun s => match s with
    | .closeDiscovery => true
    | _ => false

/-- C3: startup-phase failures are fatal and the session never reaches
running — any run not ending `ranAndStopped` has an empty event trace;
in particular a failed connectivity probe aborts with the diagnostic
carrying exactly the advertised peering address and its network, and a
bind failure aborts at the listening step, both without ever entering
the running state. -/
theorem startup_failures_fatal (env : StartEnv) (lPeer : Peer)
    (sel : Option SelectionProtocol) :
    ((start env lPeer sel).1 ≠ .ranAndStopped →
      Event.enteredRunning ∉ (start env lPeer sel).2)
    ∧ (∀ peering host port localAddr remoteAddr msg,
        lPeer.services.get peeringKey = some peering →
        env.splitHostPort peering.address = some (host, port) →
        env.resolveUDPAddr peering.network
          (joinHostPort env.bindConfig port) = .ok localAddr →
        env.resolveUDPAddr peering.network peering.address = .ok remoteAddr →
        env.checkUDP localAddr remoteAddr false true = some msg →
        (start env lPeer sel).1 =
          .selfTestFatal peering.address peering.network ∧
        Event.enteredRunning ∉ (start env lPeer sel).2)
    ∧ (∀ peering host port localAddr err,
        lPeer.services.get peeringKey = some peering →
        env.splitHostPort peering.address = some (host, port) →
        env.resolveUDPAddr peering.network
          (joinHostPort env.bindConfig port) = .ok localAddr →
        checkConnection env localAddr lPeer = .ok →
        env.listenUDP peering.network localAddr = .error err →
        (start env lPeer sel).1 = .fatalListen ∧
        Event.enteredRunning ∉ (start env lPeer sel).2) := by
  refine ⟨fun h hmem => ?_,
    fun peering host port localAddr remoteAddr msg h1 h2 h3 h4 h5 => ?_,
    fun peering host port localAddr err h1 h2 h3 h4 h5 => ?_⟩
  · rw [start_failure_trace_empty env lPeer sel h] at hmem
    simp at hmem
  · have hc : checkConnection env localAddr lPeer =
        .reachabilityFatal peering.address peering.network := by
      simp [checkConnection, h1, h4, h5]
    constructor
    · simp [start, h1, h2, h3, hc]
    · simp [start, h1, h2, h3, hc]
  · constructor
    · simp [start, h1, h2, h3, h4, h5]
    · simp [start, h1, h2, h3, h4, h5]

/-- Witness for C3: with an always-failing probe the run ends in the
self-test diagnostic naming `10.0.0.1:14626/udp`; with an occupied port
the run ends in the listen failure; neither trace contains the running
event. -/
theorem startup_failures_fatal_witness :
    ((start sampleStartEnvProbeFail samplePeerBoth none).1 =
        .selfTestFatal "10.0.0.1:14626" "udp" ∧
      Event.enteredRunning ∉
        (start sampleStartEnvProbeFail samplePeerBoth none).2) ∧
    ((start sampleStartEnvListenFail samplePeerBoth none).1 = .fatalListen ∧
      Event.enteredRunning ∉
        (start sampleStartEnvListenFail samplePeerBoth none).2) :=
  ⟨(startup_failures_fatal sampleStartEnvProbeFail samplePeerBoth none).2.1
      { network := "udp", address := "10.0.0.1:14626" } "10.0.0.1" "14626"
      { text := "resolved" } { text := "resolved" } "timeout"
      (by decide) (by decide) rfl rfl rfl,
   (startup_failures_fatal sampleStartEnvListenFail samplePeerBoth none).2.2
      { network := "udp", address := "10.0.0.1:14626" } "10.0.0.1" "14626"
      { text := "resolved" } "address already in use"
      (by decide) (by decide) rfl (by decide) rfl⟩

/-- C5 (code evaluation): the source constructs the selection protocol
unconditionally — `configureAP` sets the `Selection` global for every
configuration, gossip capability or not, and with that global non-nil
any run of `start` that produces events at all also starts selection.
This contradicts the source's own comment ("enable peer selection only
when gossip is enabled") and the claim that without the gossip
capability the selection protocol is never constructed or started. -/
theorem configureAP_selection_unconditional (env : ParseEnv)
    (cfg : List String) :
    ((configureAP env cfg).selection).isSome = true
    ∧ ∀ senv lPeer,
        Event.startedSelection ∈
          (start senv lPeer ((configureAP env cfg).selection)).2 ∨
        (start senv lPeer ((configureAP env cfg).selection)).2 = [] := by
  refine ⟨rfl, fun senv lPeer => ?_⟩
  exact start_selection_started_or_dead senv lPeer
    { validatorIsNeighborCheck := true }

/-- C8: a run that reached running and received the shutdown signal
executes the deferred close calls in strict reverse order of
acquisition — selection (when started), then discovery, then the server
wrapper, then the transport, then the socket — and because the close
failure assignment `env.closeFails` is arbitrary, every step appears in
the trace whatever any earlier close call did. -/
theorem start_teardown_order (env : StartEnv) (lPeer : Peer)
    (sel : Option SelectionProtocol)
    (h : (start env lPeer sel).1 = .ranAndStopped) :
    teardownSequence (start env lPeer sel).2 =
      (match sel with
        | some _ => [TeardownStep.closeSelection]
        | none => []) ++
      [TeardownStep.closeDiscovery, TeardownStep.closeServer,
       TeardownStep.closeTransport, TeardownStep.closeConn] := by
  obtain ⟨peering, host, port, localAddr, conn, h1, h2, h3, h4, h5⟩ :=
    start_success_inversion env lPeer sel h
  rw [start_success_trace env lPeer sel peering host port localAddr conn
    h1 h2 h3 h4 h5]
  cases sel <;> simp [teardownSequence]

/-- Witness for C8: in the sample run whose discovery close call fails,
all five close steps still execute, in the specified order. -/
theorem start_teardown_order_witness :
    teardownSequence (start sampleStartEnvOk samplePeerBoth
      (some { validatorIsNeighborCheck := true })).2 =
      [TeardownStep.closeSelection, TeardownStep.closeDiscovery,
       TeardownStep.closeServer, TeardownStep.closeTransport,
       TeardownStep.closeConn] :=
  start_teardown_order sampleStartEnvOk samplePeerBoth
    (some { validatorIsNeighborCheck := true }) (by decide)

end Hornet
